import Mathlib

/-!
Verification of the hot-reloadable geolocation dataset manager
(`management/server/geolocation/geolocation.go`).

The Go code is shallowly embedded as pure Lean functions.  Stateful methods
become functions on an explicit `Geolocation` state; every external effect
(remote filename discovery, `filepath.Glob`, file hashing, opening the mmdb
file, removing a file, the sqlite metadata store) is passed in as an explicit
result value, so each embedded function is a faithful transcription of the
control flow the Go source performs on those results.  Lock-sensitive steps of
the reload path additionally record an event trace, each event tagged with
whether the exclusive `gl.mux` writer lock is held while the step runs, which
lets us state the concurrency claims about the lock region as properties of
the trace.
-/

/-- Outcome of a Go call: a normal value, a returned `error`, or a runtime
panic (Go panics are not values, so they get their own constructor). -/
inductive GoResult (ε α : Type) where
  | ok : α → GoResult ε α
  | err : ε → GoResult ε α
  | panic : String → GoResult ε α
deriving DecidableEq

/-- Whether a `GoResult` is a normal return. -/
def GoResult.isOk {ε α : Type} : GoResult ε α → Bool
  | .ok _ => true
  | _ => false

/-- Whether an `Except` is a normal return (Go `err == nil`). -/
def isOkE {ε α : Type} : Except ε α → Bool
  | .ok _ => true
  | .error _ => false

/-- City part of the `Record` struct decoded by an mmdb lookup. -/
structure RecordCity where
  GeonameID : Nat
  NameEn : String
deriving DecidableEq

/-- Continent part of the `Record` struct. -/
structure RecordContinent where
  GeonameID : Nat
  Code : String
deriving DecidableEq

/-- Country part of the `Record` struct. -/
structure RecordCountry where
  GeonameID : Nat
  ISOCode : String
deriving DecidableEq

/-- The `Record` struct filled in by `maxminddb.Reader.Lookup`. -/
structure Record where
  City : RecordCity
  Continent : RecordContinent
  Country : RecordCountry
deriving DecidableEq

/-- A `Country` row from the sqlite metadata store. -/
structure Country where
  CountryISOCode : String
  CountryName : String
deriving DecidableEq

/-- A `City` row from the sqlite metadata store. -/
structure City where
  GeoNameID : Int
  CityName : String
deriving DecidableEq

/-- Error observed on the lookup path.  `closedDatabase` models the error the
external `maxminddb.Reader` returns when `Lookup` is invoked after `Close`
("cannot call Lookup on a closed database"); the reader guards itself, so a
post-close lookup fails with this error instead of touching released memory. -/
inductive GeoErr where
  | closedDatabase
deriving DecidableEq

/-- Model of the external `maxminddb.Reader` dependency at its interface
boundary: it answers point lookups from an abstract content map while open
(IP addresses are abstracted to `Nat` keys), and rejects lookups once closed.
`Close` releases the mapping; its (always-nil in practice) error return is not
modelled. -/
structure Reader where
  data : Nat → Record
  closed : Bool

/-- `maxminddb.Reader.Lookup`: fails on a closed reader, otherwise decodes the
record for the queried address. -/
def Reader.lookup (r : Reader) (ip : Nat) : Except GeoErr Record :=
  if r.closed then .error .closedDatabase else .ok (r.data ip)

/-- `maxminddb.Reader.Close`: marks the handle closed. -/
def Reader.closeHdl (r : Reader) : Reader := { r with closed := true }

/-- The `Geolocation` struct.  `db` is the active mmdb handle, `sha256sum` the
recorded fingerprint baseline.  The `stopCh` channel is represented by whether
it has been closed; the sqlite store by whether it has been closed.
`mmdbPath` and `reloadCheckInterval` (seconds) are kept for fidelity but take
no part in the embedded control flow. -/
structure Geolocation where
  mmdbPath : String
  sha256sum : List Nat
  db : Reader
  locationDBClosed : Bool
  stopChClosed : Bool
  reloadCheckInterval : Nat

/-- Events of the lookup path, used to observe whether a lookup call reads
through the handle and in what state the handle was at that moment. -/
inductive LookupEv where
  | rlock
  | dbLookup (closedAtCall : Bool)
  | runlock
deriving DecidableEq

/-- `Geolocation.Lookup` with its event trace: take the read lock, call
`gl.db.Lookup(ip, &record)` (unconditionally — there is no stopped-state
check), release the read lock. -/
def Geolocation.LookupT (gl : Geolocation) (ip : Nat) :
    Except GeoErr Record × List LookupEv :=
  (gl.db.lookup ip, [LookupEv.rlock, LookupEv.dbLookup gl.db.closed, LookupEv.runlock])

/-- `Geolocation.Lookup`: the value the caller sees. -/
def Geolocation.Lookup (gl : Geolocation) (ip : Nat) : Except GeoErr Record :=
  (gl.LookupT ip).1

/-- `Geolocation.GetAllCountries`: delegate to the sqlite store (its result is
the explicit argument), then keep, in order, the rows whose `CountryName` is
not empty, by appending them to an initially empty slice. -/
def Geolocation.GetAllCountries (storeR : Except String (List Country)) :
    Except String (List Country) :=
  match storeR with
  | .error e => .error e
  | .ok allCountries =>
    .ok (allCountries.foldl
      (fun countries country =>
        if !(country.CountryName == "") then countries ++ [country] else countries)
      [])

/-- `Geolocation.GetCitiesByCountry`: delegate to the sqlite store, then keep,
in order, the rows whose `CityName` is not empty. -/
def Geolocation.GetCitiesByCountry (storeR : Except String (List City)) :
    Except String (List City) :=
  match storeR with
  | .error e => .error e
  | .ok allCities =>
    .ok (allCities.foldl
      (fun cities city =>
        if !(city.CityName == "") then cities ++ [city] else cities)
      [])

/-- `Geolocation.Stop`: `close(gl.stopCh)` panics when the channel is already
closed (Go: "close of closed channel"); otherwise the channel is marked
closed, the mmdb handle is closed, and the sqlite store is closed (the
always-nil close errors of the two handles are not modelled, so the remaining
teardown is a single success path). -/
def Geolocation.Stop (gl : Geolocation) : GoResult String Geolocation :=
  if gl.stopChClosed then .panic "close of closed channel"
  else
    .ok { gl with
            stopChClosed := true,
            db := gl.db.closeHdl,
            locationDBClosed := true }

/-- The state after a successful `Stop` (identity when `Stop` does not return
normally). -/
def afterStop (gl : Geolocation) : Geolocation :=
  match gl.Stop with
  | .ok gl' => gl'
  | _ => gl

/-- Kinds of observable steps of one reload-coordinator tick. -/
inductive TickEvKind where
  | geonamesReload
  | hashFile
  | confirmSleep
  | closeHandle
  | openHandle
  | swapHandle
deriving DecidableEq

/-- One observable step of a tick, tagged with whether the exclusive
`gl.mux` writer lock is held while the step runs. -/
structure TickEv where
  kind : TickEvKind
  lockHeld : Bool
deriving DecidableEq

/-- `Geolocation.reload`: the swap step.  The Go method acquires `gl.mux`
exclusively and holds it (via `defer Unlock`) for everything it does: it
closes the currently active handle first, then attempts `openDB` on the path
(`openR` is the outcome of that file I/O), and only if the open succeeded does
it install the new handle and record the new fingerprint.  On open failure it
returns the error with the (already closed) old handle still referenced and
the old fingerprint still recorded.  Returns the resulting state, the Go
return value, and the event trace. -/
def Geolocation.reload (gl : Geolocation) (openR : Except String Reader)
    (newSha256sum : List Nat) :
    Geolocation × Except String Unit × List TickEv :=
  match openR with
  | .error e =>
    ({ gl with db := gl.db.closeHdl }, .error e,
     [⟨TickEvKind.closeHandle, true⟩, ⟨TickEvKind.openHandle, true⟩])
  | .ok db =>
    ({ gl with db := db, sha256sum := newSha256sum }, .ok (),
     [⟨TickEvKind.closeHandle, true⟩, ⟨TickEvKind.openHandle, true⟩,
      ⟨TickEvKind.swapHandle, true⟩])

/-- Trace of a tick whose first fingerprint matched the baseline (or could
not be computed): the geonames refresh and a single hash, nothing else. -/
def evsNoChange : List TickEv :=
  [⟨TickEvKind.geonamesReload, false⟩, ⟨TickEvKind.hashFile, false⟩]

/-- Trace of a tick abandoned after the confirm sample (second hash failed or
differed from the first). -/
def evsAbandoned : List TickEv :=
  evsNoChange ++ [⟨TickEvKind.confirmSleep, false⟩, ⟨TickEvKind.hashFile, false⟩]

/-- One tick of `Geolocation.reloader` (the body of the
`case <-time.After(...)` branch).  The sqlite-store reload outcome
(`geonamesR`, logged only), the two `calculateFileSHA256` outcomes
(`hash1R`, `hash2R`) and the `openDB` outcome (`openR`) are the effects of
that tick, passed in explicitly.  Hashing, the 50 ms confirm sleep and the
geonames reload run without holding `gl.mux`; everything done by `reload`
runs while holding it exclusively. -/
def Geolocation.reloaderTick (gl : Geolocation) (geonamesR : Except String Unit)
    (hash1R : Except String (List Nat)) (hash2R : Except String (List Nat))
    (openR : Except String Reader) : Geolocation × List TickEv :=
  match hash1R with
  | .error _ => (gl, evsNoChange)
  | .ok newSha256sum1 =>
    if !(gl.sha256sum == newSha256sum1) then
      match hash2R with
      | .error _ => (gl, evsAbandoned)
      | .ok newSha256sum2 =>
        if !(newSha256sum1 == newSha256sum2) then (gl, evsAbandoned)
        else
          let r := gl.reload openR newSha256sum2
          (r.1, evsAbandoned ++ r.2.2)
    else (gl, evsNoChange)

/-- Whether a trace contains the atomic handle-reference replacement. -/
def swapOccurred (evs : List TickEv) : Bool :=
  evs.any (fun e => e.kind == TickEvKind.swapHandle)

/-- Swap condition as claim C5 states it: the first fingerprint was computed,
differs from the recorded baseline, and the second fingerprint was computed
and equals the first.  (Nothing about the open succeeding.) -/
def claimedSwapCond (baseline : List Nat) (hash1R hash2R : Except String (List Nat)) :
    Bool :=
  match hash1R, hash2R with
  | .ok s1, .ok s2 => !(baseline == s1) && s1 == s2
  | _, _ => false

/-- Swap condition as amended: additionally the open of the new handle must
succeed. -/
def stableChangeSwapCond (baseline : List Nat) (hash1R hash2R : Except String (List Nat))
    (openOk : Bool) : Bool :=
  claimedSwapCond baseline hash1R hash2R && openOk

/-- Does a (non-empty) separator occur at the head of `s`? -/
def leadsWith : List Char → List Char → Bool
  | _, [] => true
  | [], _ :: _ => false
  | c :: cs, d :: ds => c == d && leadsWith cs ds

/-- Index of the first occurrence of `sep` in `s` (Go `strings.Index` for a
non-empty separator). -/
def findSubstr (s sep : List Char) : Option Nat :=
  match s with
  | [] => none
  | _ :: cs =>
    if leadsWith s sep then some 0
    else match findSubstr cs sep with
      | some i => some (i + 1)
      | none => none

/-- Go `strings.SplitN(s, sep, 2)` for a non-empty separator: split at the
first occurrence of `sep`, or return the whole string as a single element. -/
def splitN2L (s sep : List Char) : List (List Char) :=
  match findSubstr s sep with
  | none => [s]
  | some i => [s.take i, s.drop (i + sep.length)]

/-- Go `strings.Replace(s, old, new, 1)` for a non-empty `old`: replace the
first occurrence only. -/
def replace1L (s pat rep : List Char) : List Char :=
  match findSubstr s pat with
  | none => s
  | some i => s.take i ++ rep ++ s.drop (i + pat.length)

/-- Strip all trailing slashes. -/
def dropTrailingSlashes (s : List Char) : List Char :=
  (s.reverse.dropWhile (fun c => c == '/')).reverse

/-- Go `path.Base`: "." for the empty string, otherwise strip trailing
slashes, keep the part after the last slash, and "/" when nothing is left. -/
def pathBaseL (s : List Char) : List Char :=
  if s.isEmpty then ['.']
  else
    let s1 := dropTrailingSlashes s
    let s2 := (s1.reverse.takeWhile (fun c => !(c == '/'))).reverse
    if s2.isEmpty then ['/'] else s2

/-- Go `path.Base` on `String`. -/
def pathBase (s : String) : String := String.mk (pathBaseL s.toList)

/-- Byte-wise (here: code-point-wise, which agrees on ASCII) lexicographic
order on character lists, as Go's `sort.Strings` uses. -/
def lexLeB : List Char → List Char → Bool
  | [], _ => true
  | _ :: _, [] => false
  | a :: as, b :: bs =>
    if a.toNat < b.toNat then true
    else if b.toNat < a.toNat then false
    else lexLeB as bs

/-- Lexicographic order on strings. -/
def strLeB (a b : String) : Bool := lexLeB a.toList b.toList

/-- `getDatabaseFilename`.  `remoteR` is the outcome of `getFilenameFromURL`
(remote version discovery; the function lives outside the embedded file and
is modelled by its result), consulted only when `autoUpdate` is set.
`globFiles` is the `filepath.Glob(filenamePattern)` result used by
`getExistingDatabases` (Go's glob returns the matching paths sorted
lexicographically; its error is discarded by the source).  When remote
discovery is skipped or failed, the fallback picks `files[len(files)-1]`; when
it succeeded, the date is taken from the remote filename by indexing element 1
of an underscore-split without a length guard, which panics when the portion
before the first dot contains no underscore.  `remoteDerivedParts` is that
underscore-split: `strings.SplitN(strings.SplitN(filename, ".", 2)[0], "_", 2)`. -/
def remoteDerivedParts (filename : String) : List (List Char) :=
  splitN2L ((splitN2L filename.toList ['.']).headD []) ['_']

/-- See the doc comment above `remoteDerivedParts`: the first split strips
nested suffixes such as `.tar.gz`, the second isolates the date version. -/
def getDatabaseFilename (remoteR : Except String String) (globFiles : List String)
    (filenamePattern : String) (autoUpdate : Bool) : GoResult String String :=
  match autoUpdate, remoteR with
  | true, .ok filename =>
    match remoteDerivedParts filename with
    | _ :: date :: _ =>
      .ok (pathBase (String.mk (replace1L filenamePattern.toList ['*'] date)))
    | _ => .panic "index out of range"
  | _, _ =>
    if globFiles.length < 1 then .err "database does not exist"
    else .ok (pathBase (globFiles.getLastD ""))

/-- `cleanupOldDatabases`.  `files` is the glob result, `removeR` the outcome
of `os.Remove` per path.  Walks the matches in order, skips any whose base
name equals `currentFile`, removes the rest, and returns the first removal
error together with the list of paths actually removed (in order). -/
def cleanupOldDatabases (files : List String) (currentFile : String)
    (removeR : String → Except String Unit) : Except String Unit × List String :=
  match files with
  | [] => (.ok (), [])
  | db :: rest =>
    if pathBase db == currentFile then cleanupOldDatabases rest currentFile removeR
    else
      match removeR db with
      | .error e => (.error e, [])
      | .ok _ =>
        let r := cleanupOldDatabases rest currentFile removeR
        (r.1, db :: r.2)

/-- Cleanup contract as the spec words it: among the matches whose base name
differs from the current file, everything before the first failing removal is
removed, and the outcome is that first failure (or success when none
fails). -/
def cleanupSpec (files : List String) (currentFile : String)
    (removeR : String → Except String Unit) : Except String Unit × List String :=
  let targets := files.filter (fun f => !(pathBase f == currentFile))
  (match targets.find? (fun f => !(isOkE (removeR f))) with
   | none => .ok ()
   | some f => removeR f,
   targets.takeWhile (fun f => isOkE (removeR f)))

/-- A fixed record value for concrete states. -/
def emptyRecord : Record :=
  { City := { GeonameID := 0, NameEn := "" },
    Continent := { GeonameID := 0, Code := "" },
    Country := { GeonameID := 0, ISOCode := "" } }

/-- A concrete open reader. -/
def r0 : Reader := { data := fun _ => emptyRecord, closed := false }

/-- A second concrete open reader, standing for a freshly opened handle. -/
def r1 : Reader := { data := fun _ => emptyRecord, closed := false }

/-- A concrete running service state with fingerprint baseline `[0]`. -/
def gl0 : Geolocation :=
  { mmdbPath := "/var/lib/netbird/GeoLite2-City-maxmind_20240101.mmdb",
    sha256sum := [0],
    db := r0,
    locationDBClosed := false,
    stopChClosed := false,
    reloadCheckInterval := 300 }

/-- Trace of a tick that reached the swap step but failed to open the new
handle: both hashes, then close and open attempt under the writer lock. -/
def evsOpenFailed : List TickEv :=
  evsAbandoned ++ [⟨TickEvKind.closeHandle, true⟩, ⟨TickEvKind.openHandle, true⟩]

/-- Trace of a tick that swapped the handle: both hashes outside the lock,
then close, open and reference swap under the writer lock. -/
def evsSwapped : List TickEv :=
  evsAbandoned ++ [⟨TickEvKind.closeHandle, true⟩, ⟨TickEvKind.openHandle, true⟩,
    ⟨TickEvKind.swapHandle, true⟩]

/-- A concrete glob pattern, as `GetMaxMindFilenames` builds it. -/
def mmdbPat : String := "/var/lib/netbird/GeoLite2-City-maxmind_*.mmdb"

/-- A concrete sorted glob result with two versioned database files. -/
def gfs2 : List String :=
  ["GeoLite2-City-maxmind_20240101.mmdb", "GeoLite2-City-maxmind_20240301.mmdb"]

/-- Every reloader tick produces one of exactly four event traces. -/
theorem tickEvents_cases (gl : Geolocation) (g : Except String Unit)
    (h1 h2 : Except String (List Nat)) (o : Except String Reader) :
    (gl.reloaderTick g h1 h2 o).2 = evsNoChange ∨
    (gl.reloaderTick g h1 h2 o).2 = evsAbandoned ∨
    (gl.reloaderTick g h1 h2 o).2 = evsOpenFailed ∨
    (gl.reloaderTick g h1 h2 o).2 = evsSwapped := by
  cases h1 with
  | error e => exact Or.inl rfl
  | ok s1 =>
    by_cases hb : gl.sha256sum == s1
    · exact Or.inl (by simp [Geolocation.reloaderTick, hb])
    · cases h2 with
      | error e =>
        exact Or.inr (Or.inl (by simp [Geolocation.reloaderTick, hb]))
      | ok s2 =>
        by_cases hb2 : s1 == s2
        · cases o with
          | error e =>
            refine Or.inr (Or.inr (Or.inl ?_))
            simp [Geolocation.reloaderTick, Geolocation.reload, hb, hb2, evsOpenFailed]
          | ok db =>
            refine Or.inr (Or.inr (Or.inr ?_))
            simp [Geolocation.reloaderTick, Geolocation.reload, hb, hb2, evsSwapped]
        · exact Or.inr (Or.inl (by simp [Geolocation.reloaderTick, hb, hb2]))

/-- C1: the claim says that when opening the new handle fails during a
stable-fingerprint reload cycle, the previously active handle is retained
still open and serving lookups.  The code instead closes the active handle
before attempting the open, so on open failure the fingerprint baseline is
indeed unchanged and the old handle reference is retained, but that handle is
closed and every subsequent lookup fails with the closed-database error
instead of being served. -/
theorem reload_openFailure_keeps_closed_handle :
    (gl0.reloaderTick (.ok ()) (.ok [9]) (.ok [9]) (.error "open failed")).1.sha256sum
        = gl0.sha256sum ∧
    gl0.db.closed = false ∧
    (gl0.reloaderTick (.ok ()) (.ok [9]) (.ok [9]) (.error "open failed")).1.db.closed
        = true ∧
    (gl0.reloaderTick (.ok ()) (.ok [9]) (.ok [9]) (.error "open failed")).1.Lookup 7
        = .error .closedDatabase :=
  ⟨rfl, rfl, rfl, rfl⟩

/-- C2: the claim says invoking `stop()` twice never fails, panics or
deadlocks.  In the code the shutdown signal is `close(gl.stopCh)`, and closing
an already-closed Go channel panics: the first `Stop` returns normally, the
second panics with "close of closed channel". -/
theorem stop_twice_panics :
    (Geolocation.Stop gl0).isOk = true ∧
    Geolocation.Stop (afterStop gl0) = .panic "close of closed channel" :=
  ⟨rfl, rfl⟩

/-- C3 (counterexample): a lookup that begins after `stop()` completed is
forwarded straight to the released handle — the trace records the handle
being invoked while closed — and the error the caller sees is the handle's
closed-database error, not a service-level "service stopped" condition,
refuting "never dereferences or reads through the released handle". -/
theorem lookup_after_stop_hits_closed_reader_cx :
    (Geolocation.Stop gl0).isOk = true ∧
    LookupEv.dbLookup true ∈ ((afterStop gl0).LookupT 7).2 ∧
    (afterStop gl0).Lookup 7 = .error .closedDatabase :=
  ⟨rfl, by decide, rfl⟩

/-- C3 (amended): every lookup that begins after `stop()` has completed is
forwarded to the released handle with no service-level stopped check; it
fails cleanly with the handle's own closed-database error (the external
reader rejects use after close), so no released memory is read, but the
failure comes from the handle, not from a "service stopped" condition of the
service. -/
theorem lookup_after_stop_closed_database_error (gl gl' : Geolocation)
    (h : gl.Stop = .ok gl') (ip : Nat) :
    gl'.Lookup ip = .error .closedDatabase ∧
    LookupEv.dbLookup true ∈ (gl'.LookupT ip).2 := by
  unfold Geolocation.Stop at h
  cases hs : gl.stopChClosed
  · rw [hs] at h
    simp only [Bool.false_eq_true, if_false, GoResult.ok.injEq] at h
    subst h
    constructor
    · simp [Geolocation.Lookup, Geolocation.LookupT, Reader.lookup, Reader.closeHdl]
    · simp [Geolocation.LookupT, Reader.closeHdl]
  · rw [hs] at h
    simp at h

/-- Witness for the amended C3 theorem at a concrete stopped state. -/
theorem lookup_after_stop_closed_database_error_witness :
    (afterStop gl0).Lookup 7 = .error .closedDatabase ∧
    LookupEv.dbLookup true ∈ ((afterStop gl0).LookupT 7).2 :=
  lookup_after_stop_closed_database_error gl0 (afterStop gl0) rfl 7

/-- C4 (counterexample): in a tick that reaches the swap step, the open of
the new handle is performed while the exclusive writer lock is held — the
trace contains the open event tagged lock-held, and every open event of that
tick is tagged lock-held — refuting "opening the new handle occurs outside
the locked region". -/
theorem open_inside_lock_cx :
    (⟨TickEvKind.openHandle, true⟩ : TickEv)
        ∈ (gl0.reloaderTick (.ok ()) (.ok [9]) (.ok [9]) (.ok r1)).2 ∧
    (gl0.reloaderTick (.ok ()) (.ok [9]) (.ok [9]) (.ok r1)).2.all
        (fun e => !(e.kind == TickEvKind.openHandle) || e.lockHeld) = true := by
  constructor <;> decide

/-- C4 (amended): in every reload cycle both fingerprint computations (and
the confirm sleep and the geonames refresh) happen outside the exclusive
lock, so readers never block on hashing; but the exclusive section covers,
besides the handle-reference replacement, both the closing of the superseded
handle and the opening of the new one, so a reader can block on the open's
file I/O during a swap. -/
theorem lock_region_covers_close_open_swap (gl : Geolocation) (g : Except String Unit)
    (h1 h2 : Except String (List Nat)) (o : Except String Reader) :
    ((gl.reloaderTick g h1 h2 o).2.all
        (fun e => !(e.kind == TickEvKind.hashFile && e.lockHeld))) = true ∧
    ((gl.reloaderTick g h1 h2 o).2.all
        (fun e => !(e.kind == TickEvKind.confirmSleep && e.lockHeld))) = true ∧
    ((gl.reloaderTick g h1 h2 o).2.all
        (fun e => !(e.kind == TickEvKind.geonamesReload && e.lockHeld))) = true ∧
    ((gl.reloaderTick g h1 h2 o).2.all
        (fun e => !e.lockHeld ||
          (e.kind == TickEvKind.closeHandle || e.kind == TickEvKind.openHandle ||
           e.kind == TickEvKind.swapHandle))) = true := by
  rcases tickEvents_cases gl g h1 h2 o with h | h | h | h <;> rw [h] <;>
    exact ⟨by decide, by decide, by decide, by decide⟩

/-- C5 (counterexample): the claim's replace-condition (first fingerprint
computed and different from the baseline, second computed and equal to the
first) holds at this input, yet no handle replacement happens, because the
open of the new handle fails — the claimed "if and only if" is missing the
open-success condition. -/
theorem swap_despite_claim_condition_cx :
    claimedSwapCond gl0.sha256sum (.ok [9]) (.ok [9]) = true ∧
    swapOccurred (gl0.reloaderTick (.ok ()) (.ok [9]) (.ok [9]) (.error "open failed")).2
        = false := by
  constructor <;> decide

/-- C5 (amended): on each tick the active handle is replaced if and only if
the first fingerprint was computed and differs from the recorded baseline,
the second fingerprint was computed and equals the first, and opening the new
handle succeeds; an unchanged first fingerprint yields no swap and no further
I/O that tick (the trace stops after the geonames refresh and the single
hash); and a mismatch between the two samples abandons the cycle leaving the
state untouched. -/
theorem swap_iff_stable_change_and_open_ok (gl : Geolocation) (g : Except String Unit)
    (h1 h2 : Except String (List Nat)) (o : Except String Reader) :
    swapOccurred (gl.reloaderTick g h1 h2 o).2
        = stableChangeSwapCond gl.sha256sum h1 h2 (isOkE o) ∧
    (h1 = .ok gl.sha256sum → gl.reloaderTick g h1 h2 o = (gl, evsNoChange)) ∧
    (∀ s1 s2, h1 = .ok s1 → h2 = .ok s2 → s1 ≠ gl.sha256sum → s2 ≠ s1 →
      gl.reloaderTick g h1 h2 o = (gl, evsAbandoned)) := by
  refine ⟨?_, ?_, ?_⟩
  · cases h1 with
    | error e =>
      simp [Geolocation.reloaderTick, stableChangeSwapCond, claimedSwapCond,
        swapOccurred, evsNoChange]
    | ok s1 =>
      cases h2 with
      | error e2 =>
        by_cases hb : gl.sha256sum == s1 <;>
          simp [Geolocation.reloaderTick, stableChangeSwapCond, claimedSwapCond, hb,
            swapOccurred, evsAbandoned, evsNoChange]
      | ok s2 =>
        by_cases hb : gl.sha256sum == s1
        · simp [Geolocation.reloaderTick, stableChangeSwapCond, claimedSwapCond, hb,
            swapOccurred, evsNoChange]
        · by_cases hb2 : s1 == s2
          · cases o with
            | error e3 =>
              simp [Geolocation.reloaderTick, Geolocation.reload, stableChangeSwapCond,
                claimedSwapCond, hb, hb2, swapOccurred, evsAbandoned, evsNoChange,
                isOkE]
            | ok db =>
              simp [Geolocation.reloaderTick, Geolocation.reload, stableChangeSwapCond,
                claimedSwapCond, hb, hb2, swapOccurred, evsAbandoned, evsNoChange,
                isOkE]
          · simp [Geolocation.reloaderTick, stableChangeSwapCond, claimedSwapCond, hb,
              hb2, swapOccurred, evsAbandoned, evsNoChange]
  · intro h
    subst h
    simp [Geolocation.reloaderTick]
  · intro s1 s2 hs1 hs2 hne1 hne2
    subst hs1
    subst hs2
    have hb : (gl.sha256sum == s1) = false := by
      simp [beq_eq_false_iff_ne]
      exact fun he => hne1 he.symm
    have hb2 : (s1 == s2) = false := by
      simp [beq_eq_false_iff_ne]
      exact fun he => hne2 he.symm
    simp [Geolocation.reloaderTick, hb, hb2]

/-- Witness for the amended C5 theorem: an unchanged fingerprint tick and a
mismatched-samples tick at concrete inputs. -/
theorem swap_iff_stable_change_and_open_ok_witness :
    gl0.reloaderTick (.ok ()) (.ok [0]) (.ok [7]) (.ok r1) = (gl0, evsNoChange) ∧
    gl0.reloaderTick (.ok ()) (.ok [9]) (.ok [8]) (.ok r1) = (gl0, evsAbandoned) := by
  constructor
  · exact (swap_iff_stable_change_and_open_ok gl0 (.ok ()) (.ok [0]) (.ok [7]) (.ok r1)).2.1 rfl
  · exact (swap_iff_stable_change_and_open_ok gl0 (.ok ()) (.ok [9]) (.ok [8]) (.ok r1)).2.2
      [9] [8] rfl rfl (by decide) (by decide)

/-- Lexicographic order is reflexive. -/
theorem lexLeB_refl : ∀ s : List Char, lexLeB s s = true := by
  intro s
  induction s with
  | nil => rfl
  | cons a t ih => simp [lexLeB, ih]

/-- Reflexivity on strings. -/
theorem strLeB_refl (s : String) : strLeB s s = true := lexLeB_refl s.toList

/-- `getLastD` of a non-empty list is a member. -/
theorem getLastD_mem_of_ne_nil :
    ∀ (t : List String) (d : String), t ≠ [] → t.getLastD d ∈ t := by
  intro t
  induction t with
  | nil => intro d hd; exact absurd rfl hd
  | cons a t ih =>
    intro d _
    rw [List.getLastD_cons]
    cases t with
    | nil => simp
    | cons b t2 =>
      exact List.mem_cons_of_mem a (ih a (by simp))

/-- In a list sorted by `strLeB`, every member is below the last element,
whatever the fallback. -/
theorem mem_le_getLastD_of_pairwise :
    ∀ (l : List String) (d : String), List.Pairwise (fun a b => strLeB a b = true) l →
      ∀ f ∈ l, strLeB f (l.getLastD d) = true := by
  intro l
  induction l with
  | nil => intro d _ f hf; simp at hf
  | cons a t ih =>
    intro d hp f hf
    rw [List.getLastD_cons]
    rcases List.mem_cons.mp hf with hfa | hft
    · subst hfa
      cases ht : t with
      | nil => simp [strLeB_refl]
      | cons b t2 =>
        have hmem : t.getLastD f ∈ t := by
          rw [ht]; exact getLastD_mem_of_ne_nil (b :: t2) f (by simp)
        rw [ht] at hmem
        exact (List.pairwise_cons.mp hp).1 _ (ht ▸ hmem)
    · exact ih a (List.pairwise_cons.mp hp).2 f hft

/-- C6: when remote discovery is not requested (`autoUpdate` false) or failed,
`getDatabaseFilename` returns the base name of the last entry of the sorted
glob result — the lexicographically last matching filename — and it returns
the "database does not exist" error exactly when remote discovery yielded no
filename and no local file matches the pattern. -/
theorem getDatabaseFilename_fallback_spec (remoteR : Except String String)
    (globFiles : List String) (pat : String) (autoUpdate : Bool) :
    ((autoUpdate = false ∨ isOkE remoteR = false) →
      getDatabaseFilename remoteR globFiles pat autoUpdate =
        if globFiles = [] then .err "database does not exist"
        else .ok (pathBase (globFiles.getLastD ""))) ∧
    (globFiles ≠ [] → globFiles.getLastD "" ∈ globFiles) ∧
    (List.Pairwise (fun a b => strLeB a b = true) globFiles →
      ∀ f ∈ globFiles, strLeB f (globFiles.getLastD "") = true) ∧
    (getDatabaseFilename remoteR globFiles pat autoUpdate = .err "database does not exist"
      ↔ ((autoUpdate = false ∨ isOkE remoteR = false) ∧ globFiles = [])) := by
  refine ⟨?_, fun hne => getLastD_mem_of_ne_nil globFiles "" hne,
    fun hp f hf => mem_le_getLastD_of_pairwise globFiles "" hp f hf, ?_⟩
  · intro h
    cases autoUpdate with
    | false =>
      cases globFiles with
      | nil => rfl
      | cons a t => simp [getDatabaseFilename]
    | true =>
      cases remoteR with
      | error e =>
        cases globFiles with
        | nil => rfl
        | cons a t => simp [getDatabaseFilename]
      | ok rf => simp [isOkE] at h
  · cases autoUpdate with
    | false =>
      cases globFiles with
      | nil => simp [getDatabaseFilename]
      | cons a t => simp [getDatabaseFilename]
    | true =>
      cases remoteR with
      | error e =>
        cases globFiles with
        | nil => simp [getDatabaseFilename, isOkE]
        | cons a t => simp [getDatabaseFilename, isOkE]
      | ok rf =>
        have hne : getDatabaseFilename (.ok rf) globFiles pat true
            ≠ .err "database does not exist" := by
          cases hsp : remoteDerivedParts rf with
          | nil => simp [getDatabaseFilename, hsp]
          | cons p rest =>
            cases rest with
            | nil => simp [getDatabaseFilename, hsp]
            | cons q rest2 => simp [getDatabaseFilename, hsp]
        simp [hne, isOkE]

/-- Witness for the C6 theorem: with two sorted matches and failed remote
discovery the selector picks the newer file, and the older one is indeed
lexicographically below it. -/
theorem getDatabaseFilename_fallback_spec_witness :
    getDatabaseFilename (Except.error "transient network failure") gfs2 mmdbPat true =
      (if gfs2 = [] then .err "database does not exist"
       else .ok (pathBase (gfs2.getLastD ""))) ∧
    gfs2.getLastD "" ∈ gfs2 ∧
    strLeB "GeoLite2-City-maxmind_20240101.mmdb" (gfs2.getLastD "") = true ∧
    getDatabaseFilename (Except.error "transient network failure") gfs2 mmdbPat true =
      .ok "GeoLite2-City-maxmind_20240301.mmdb" := by
  refine ⟨(getDatabaseFilename_fallback_spec (Except.error "transient network failure")
      gfs2 mmdbPat true).1 (Or.inr rfl),
    (getDatabaseFilename_fallback_spec (Except.error "transient network failure")
      gfs2 mmdbPat true).2.1 (by decide),
    (getDatabaseFilename_fallback_spec (Except.error "transient network failure")
      gfs2 mmdbPat true).2.2.1 (by decide) "GeoLite2-City-maxmind_20240101.mmdb" (by decide),
    ((getDatabaseFilename_fallback_spec (Except.error "transient network failure")
      gfs2 mmdbPat true).1 (Or.inr rfl)).trans (by decide)⟩

/-- C7: startup cleanup removes exactly the glob matches whose base name
differs from the designated current filename, in order, never the current
file itself, and the first removal error aborts the remaining removals and is
the propagated outcome — summarized as equality with the spec-side
characterization `cleanupSpec`. -/
theorem cleanupOldDatabases_matches_spec (files : List String) (currentFile : String)
    (removeR : String → Except String Unit) :
    cleanupOldDatabases files currentFile removeR = cleanupSpec files currentFile removeR := by
  induction files with
  | nil => rfl
  | cons db rest ih =>
    by_cases hb : pathBase db == currentFile
    · simpa [cleanupOldDatabases, cleanupSpec, hb] using ih
    · cases hrm : removeR db with
      | error e =>
        simp [cleanupOldDatabases, cleanupSpec, hb, hrm, isOkE]
      | ok u =>
        simp [cleanupOldDatabases, cleanupSpec, hb, hrm, isOkE, ih]

/-- The append-accumulate loop of the metadata facade equals a filter. -/
theorem foldl_append_filter {α : Type} (p : α → Bool) :
    ∀ (l acc : List α),
      l.foldl (fun acc2 c => if p c then acc2 ++ [c] else acc2) acc = acc ++ l.filter p := by
  intro l
  induction l with
  | nil => intro acc; simp
  | cons a t ih =>
    intro acc
    by_cases hp : p a
    · simp [List.foldl_cons, hp, ih, List.filter_cons]
    · simp [List.foldl_cons, hp, ih, List.filter_cons]

/-- C8: on every row sequence the store returns, the facade functions return
exactly the subsequence of rows whose display name is non-empty, in the
store's order: rows with an empty display name are dropped and nothing else
is dropped or altered. -/
theorem metadata_facade_filters_empty_names (countryRows : List Country)
    (cityRows : List City) :
    Geolocation.GetAllCountries (.ok countryRows)
        = .ok (countryRows.filter (fun c => !(c.CountryName == ""))) ∧
    Geolocation.GetCitiesByCountry (.ok cityRows)
        = .ok (cityRows.filter (fun c => !(c.CityName == ""))) := by
  constructor
  · simp only [Geolocation.GetAllCountries, Except.ok.injEq]
    simpa using foldl_append_filter (fun c : Country => !(c.CountryName == "")) countryRows []
  · simp only [Geolocation.GetCitiesByCountry, Except.ok.injEq]
    simpa using foldl_append_filter (fun c : City => !(c.CityName == "")) cityRows []

/-- C9: when remote discovery is requested and succeeds, and the portion of
the remote filename before its first dot does contain an underscore, the
selector substitutes the part after that first underscore (the date segment)
for the wildcard of the glob pattern and returns the base name of the result
— for any glob result, i.e. without requiring the derived file to exist
locally. -/
theorem derived_filename_from_remote (globFiles : List String) (pat rf : String)
    (pre date : List Char) (h : remoteDerivedParts rf = [pre, date]) :
    getDatabaseFilename (.ok rf) globFiles pat true =
      .ok (pathBase (String.mk (replace1L pat.toList ['*'] date))) := by
  simp [getDatabaseFilename, h]

/-- Witness for the C9 theorem at a concrete remote archive name: date
`20240301` is extracted from `GeoLite2-City-maxmind_20240301.tar.gz` and
substituted into the pattern, giving
`GeoLite2-City-maxmind_20240301.mmdb` with no local file present at all. -/
theorem derived_filename_from_remote_witness :
    getDatabaseFilename (Except.ok "GeoLite2-City-maxmind_20240301.tar.gz") [] mmdbPat true =
      .ok (pathBase (String.mk (replace1L mmdbPat.toList ['*'] "20240301".toList))) ∧
    pathBase (String.mk (replace1L mmdbPat.toList ['*'] "20240301".toList)) =
      "GeoLite2-City-maxmind_20240301.mmdb" := by
  constructor
  · exact derived_filename_from_remote [] mmdbPat "GeoLite2-City-maxmind_20240301.tar.gz"
      "GeoLite2-City-maxmind".toList "20240301".toList (by decide)
  · decide

/-- C10: the remote-filename derivation indexes element 1 of the
underscore-split without a length guard, so whenever remote discovery
succeeds with a filename whose portion before the first dot contains no
underscore (the split has fewer than two parts), `getDatabaseFilename`
panics (index out of range) instead of returning an error. -/
theorem remote_filename_without_underscore_panics (globFiles : List String)
    (pat rf : String) (h : (remoteDerivedParts rf).length < 2) :
    getDatabaseFilename (.ok rf) globFiles pat true = .panic "index out of range" := by
  cases hsp : remoteDerivedParts rf with
  | nil => simp [getDatabaseFilename, hsp]
  | cons p rest =>
    cases rest with
    | nil => simp [getDatabaseFilename, hsp]
    | cons q rest2 =>
      rw [hsp] at h
      exact absurd h (by simp)

/-- Witness for the C10 theorem: a legacy-style remote name with no date
segment makes the selector panic. -/
theorem remote_filename_without_underscore_panics_witness :
    (remoteDerivedParts "GeoLite2-City.tar.gz").length < 2 ∧
    getDatabaseFilename (Except.ok "GeoLite2-City.tar.gz") [] mmdbPat true =
      .panic "index out of range" :=
  ⟨by decide,
   remote_filename_without_underscore_panics [] mmdbPat "GeoLite2-City.tar.gz" (by decide)⟩
